import Mathlib

/-!
Verification development for the policy-tracker repository.

The Python sources `src/app.py` and `src/scraper.py` are shallowly embedded
below: pure fragments become Lean functions, the LLM backend and the HTTP
layer are injected as explicit arguments, and Python exceptions become
`Except` / explicit outcome constructors.  Components that the design
document describes but that are absent from the two source files shown
(the Analysis Cache, the constitution-mode Result Interpreter and the
Selection Coordinator) are modelled from the specification text; their doc
comments say so explicitly.
-/

/-- Helper for Python's substring test: does `pat` occur inside the char list? -/
def containsAux (pat : List Char) : List Char → Bool
  | [] => pat.isEmpty
  | c :: cs => pat.isPrefixOf (c :: cs) || containsAux pat cs

/-- Python's `pat in s` substring containment on strings. -/
def pyContains (s pat : String) : Bool := containsAux pat.data s.data

/-- The `impact` template of the `prompts` dict in `ai_analyze_policy`
(src/app.py line 87). -/
def impactPrompt (title text : String) : String :=
  "Analyze the economic impact of '" ++ title ++
    "'. Who are the winners and losers? (3 bullets each). Text: " ++ text

/-- The `sentiment` template of the `prompts` dict (src/app.py line 88). -/
def sentimentPrompt (title text : String) : String :=
  "Analyze the partisan lean of '" ++ title ++
    "'. Is it broadly bipartisan or sharply partisan? Explain why. Text: " ++ text

/-- The `semantic` template of the `prompts` dict (src/app.py line 89);
it interpolates only the title. -/
def semanticPrompt (title : String) : String :=
  "Identify the top 3 industries affected by this policy: " ++ title

/-- Python `prompts.get(analysis_type, prompts["impact"])` (src/app.py line 96):
an unrecognized analysis type falls back to the impact template. -/
def selectPrompt (analysis_type title text : String) : String :=
  if analysis_type = "impact" then impactPrompt title text
  else if analysis_type = "sentiment" then sentimentPrompt title text
  else if analysis_type = "semantic" then semanticPrompt title
  else impactPrompt title text

/-- The fixed short-circuit message of `ai_analyze_policy` (src/app.py line 93). -/
def pendingMsg : String := "Deep analysis pending official text release."

/-- `ai_analyze_policy(text, title, analysis_type)` (src/app.py lines 81-99).
The Gemini call `model.generate_content(...).text` is injected as `gen`
(`Except.error` models a raised exception, caught by the `except` clause).
The second component counts how many times the LLM backend was invoked. -/
def ai_analyze_policy (gen : String → Except String String)
    (text title analysis_type : String) : String × Nat :=
  if (text == "" || pyContains text "not yet available") then (pendingMsg, 0)
  else
    match gen (selectPrompt analysis_type title text) with
    | Except.ok t => (t, 1)
    | Except.error e => ("Analysis Error: " ++ e, 1)

/-- Minimal model of the Python values the fetchers return
(`None`, strings, JSON lists, JSON dicts). -/
inductive PyVal where
  | none
  | str (s : String)
  | list (xs : List PyVal)
  | dict (fields : List (String × PyVal))

/-- Python `d.get(key, default)` on a parsed JSON value.  (The non-dict branch,
which would raise in Python, is modelled as the default; the theorems below
never rely on it.) -/
def PyVal.getD (v : PyVal) (key : String) (dflt : PyVal) : PyVal :=
  match v with
  | PyVal.dict fs =>
      match fs.lookup key with
      | some x => x
      | Option.none => dflt
  | _ => dflt

/-- Outcome of one `requests.get` round trip: an HTTP response carrying a status
code and the parsed JSON body, or a raised transport exception. -/
inductive HttpOutcome where
  | response (status : Nat) (body : PyVal)
  | exc (msg : String)

/-- `fetch_data(endpoint)` (src/app.py lines 32-42): parsed JSON on HTTP 200,
otherwise Python `None`; a raised exception is caught, surfaced via
`st.error`, and `None` is returned.  The second component is the surfaced
warning message, if any. -/
def fetch_data (o : HttpOutcome) : PyVal × Option String :=
  match o with
  | HttpOutcome.response status body =>
      if status = 200 then (body, Option.none) else (PyVal.none, Option.none)
  | HttpOutcome.exc e => (PyVal.none, some ("API Error: " ++ e))

/-- `fetch_executive_orders()` (src/app.py lines 51-63): the `results` field on
HTTP 200, an empty list otherwise; a raised exception is caught, surfaced via
`st.error`, and an empty list returned. -/
def fetch_executive_orders (o : HttpOutcome) : PyVal × Option String :=
  match o with
  | HttpOutcome.response status body =>
      if status = 200 then (body.getD "results" (PyVal.list []), Option.none)
      else (PyVal.list [], Option.none)
  | HttpOutcome.exc e =>
      (PyVal.list [], some ("Error fetching Executive Orders: " ++ e))

/-- `fetch_scotus_cases()` (src/app.py lines 65-77): parsed JSON on HTTP 200,
an empty list otherwise; the bare `except` swallows exceptions silently and
returns an empty list with no warning. -/
def fetch_scotus_cases (o : HttpOutcome) : PyVal × Option String :=
  match o with
  | HttpOutcome.response status body =>
      if status = 200 then (body, Option.none) else (PyVal.list [], Option.none)
  | HttpOutcome.exc _ => (PyVal.list [], Option.none)

/-- `get_recent_bills()` (src/scraper.py lines 8-16): the `bills` field on
HTTP 200; a raised exception is caught and printed; every non-200 or
exceptional path ends in the trailing `return []`. -/
def get_recent_bills (o : HttpOutcome) : PyVal × Option String :=
  match o with
  | HttpOutcome.response status body =>
      if status = 200 then (body.getD "bills" (PyVal.list []), Option.none)
      else (PyVal.list [], Option.none)
  | HttpOutcome.exc e => (PyVal.list [], some ("Connection Error: " ++ e))

/-- The `ttl` argument of `@st.cache_data` on `fetch_data` (src/app.py line 32),
in seconds. -/
def fetch_data_ttl : Nat := 600

/-- The `ttl` argument of `@st.cache_data` on `fetch_executive_orders`
(src/app.py line 51), in seconds. -/
def fetch_executive_orders_ttl : Nat := 3600

/-- The `ttl` argument of `@st.cache_data` on `fetch_scotus_cases`
(src/app.py line 65), in seconds. -/
def fetch_scotus_cases_ttl : Nat := 3600

/-- Model of the `st.cache_data(ttl=...)` expiring cache: a stored entry is
served while its age is strictly below `ttl` seconds, otherwise the value is
recomputed.  The second component counts recomputations. -/
def cachedCall {α : Type} (ttl : Nat) (stored : Option (Nat × α)) (now : Nat)
    (compute : α) : α × Nat :=
  match stored with
  | some (t0, v) => if now - t0 < ttl then (v, 0) else (compute, 1)
  | Option.none => (compute, 1)

/-- Parse a nonempty all-ASCII-digit char list as a natural number; used by
the spec-modelled Result Interpreter's integer parse. -/
def parseNatList? (l : List Char) : Option Nat :=
  if !l.isEmpty && l.all Char.isDigit then
    some (l.foldl (fun n c => n * 10 + (c.toNat - 48)) 0)
  else Option.none

/-- Decimal-digit value of a char as consumed by Python's `int()` (Unicode
category Nd).  Modelled over the listed decimal-digit blocks: ASCII,
Arabic-Indic, Extended Arabic-Indic, Devanagari, Bengali, Gurmukhi, Gujarati,
Oriya, Tamil, Telugu, Kannada, Malayalam, Thai, Lao, Tibetan, Myanmar, Khmer,
Mongolian and fullwidth; code points outside these blocks are modelled as
non-decimal. -/
def pyIntDigit? (c : Char) : Option Nat :=
  let n := c.toNat
  if 48 ≤ n ∧ n ≤ 57 then some (n - 48)
  else if 1632 ≤ n ∧ n ≤ 1641 then some (n - 1632)
  else if 1776 ≤ n ∧ n ≤ 1785 then some (n - 1776)
  else if 2406 ≤ n ∧ n ≤ 2415 then some (n - 2406)
  else if 2534 ≤ n ∧ n ≤ 2543 then some (n - 2534)
  else if 2662 ≤ n ∧ n ≤ 2671 then some (n - 2662)
  else if 2790 ≤ n ∧ n ≤ 2799 then some (n - 2790)
  else if 2918 ≤ n ∧ n ≤ 2927 then some (n - 2918)
  else if 3046 ≤ n ∧ n ≤ 3055 then some (n - 3046)
  else if 3174 ≤ n ∧ n ≤ 3183 then some (n - 3174)
  else if 3302 ≤ n ∧ n ≤ 3311 then some (n - 3302)
  else if 3430 ≤ n ∧ n ≤ 3439 then some (n - 3430)
  else if 3664 ≤ n ∧ n ≤ 3673 then some (n - 3664)
  else if 3792 ≤ n ∧ n ≤ 3801 then some (n - 3792)
  else if 3872 ≤ n ∧ n ≤ 3881 then some (n - 3872)
  else if 4160 ≤ n ∧ n ≤ 4169 then some (n - 4160)
  else if 6112 ≤ n ∧ n ≤ 6121 then some (n - 6112)
  else if 6160 ≤ n ∧ n ≤ 6169 then some (n - 6160)
  else if 65296 ≤ n ∧ n ≤ 65305 then some (n - 65296)
  else Option.none

/-- Chars with Unicode Numeric_Type=Digit that are NOT decimal digits:
`str.isdigit` accepts them but `int()` raises ValueError on them.  Modelled:
the superscript digits U+00B2, U+00B3, U+00B9, U+2070, U+2074-2079 and the
subscript digits U+2080-2089. -/
def pyDigitOnlyChar (c : Char) : Bool :=
  let n := c.toNat
  n = 178 || n = 179 || n = 185 || n = 8304 ||
    (8308 ≤ n && n ≤ 8313) || (8320 ≤ n && n ≤ 8329)

/-- Python `str.isdigit` on a single char: a decimal digit (Nd) or a
digit-only (Numeric_Type=Digit) code point. -/
def pyIsDigitChar (c : Char) : Bool :=
  (pyIntDigit? c).isSome || pyDigitOnlyChar c

/-- Python `str.isdigit`: the string is nonempty and every char is
digit-like. -/
def pyIsDigit (s : String) : Bool :=
  !s.data.isEmpty && s.data.all pyIsDigitChar

/-- Python `int()` applied to a nonempty digit-like string: succeeds iff every
char is a decimal digit (Nd); `none` models the raised ValueError.  (Signs,
whitespace and underscores, which `int()` also accepts, fail `isdigit` and so
never reach this call in `main_interface`.) -/
def pyInt? (l : List Char) : Option Nat :=
  if l.isEmpty then Option.none
  else
    l.foldl
      (fun acc c =>
        match acc, pyIntDigit? c with
        | some m, some d => some (m * 10 + d)
        | _, _ => Option.none)
      (some 0)

/-- Outcome of one round of the selection loop in `main_interface`
(src/scraper.py lines 67-80): quit, fetch details for `bills[idx]`, print the
invalid-selection message, or crash with an uncaught ValueError raised by
`int(choice)` on a digit-only (non-decimal) input. -/
inductive ChoiceOutcome where
  | quit
  | details (idx : Nat)
  | invalid
  | valueError
deriving DecidableEq

/-- One round of the selection loop of `main_interface`
(src/scraper.py lines 67-80): `choice.lower() == 'q'` quits; otherwise
`choice.isdigit() and 1 <= int(choice) <= len(bills)` guards the indexing
`bills[int(choice)-1]`, where `int(choice)` can raise an uncaught ValueError
on inputs that pass `isdigit` but contain a non-decimal digit char; every
other input prints the invalid message. -/
def handleChoice (bills : List PyVal) (choice : String) : ChoiceOutcome :=
  if choice.data.map Char.toLower = [ 'q' ] then ChoiceOutcome.quit
  else if pyIsDigit choice then
    match pyInt? choice.data with
    | some n =>
        if 1 ≤ n ∧ n ≤ bills.length then ChoiceOutcome.details (n - 1)
        else ChoiceOutcome.invalid
    | Option.none => ChoiceOutcome.valueError
  else ChoiceOutcome.invalid

/-- Modelled from the spec: `AnalysisMode` (§3), the enumerated analysis modes.
Absent from src/, where modes are raw strings. -/
inductive AnalysisMode where
  | impact
  | sentiment
  | constitution
deriving DecidableEq

/-- Modelled from the spec: `AnalysisResult` (§3), an integer score plus the
explanatory body. -/
structure AnalysisResult where
  score : Int
  body : String
deriving DecidableEq

/-- Modelled from the spec: `AnalysisKey` (§3), the pair (item id, mode). -/
structure AnalysisKey where
  itemId : String
  mode : AnalysisMode
deriving DecidableEq

/-- Modelled from the spec: the Analysis Cache's backing store (§4.4), a map
from AnalysisKey to AnalysisResult. -/
abbrev Cache := List (AnalysisKey × AnalysisResult)

/-- Lookup in the Analysis Cache store. -/
def cacheLookup : Cache → AnalysisKey → Option AnalysisResult
  | [], _ => Option.none
  | (k0, r) :: rest, k => if k = k0 then some r else cacheLookup rest k

/-- Modelled from the spec: `getOrCompute` of the Analysis Cache (§4.4, §7),
absent from src/.  On a hit the stored value is returned without invoking
`compute`; on a miss `compute` runs once and a successful result is stored;
a failed invocation yields a user-visible error string in place of the body
and is NOT stored (failures are not memoized).  `compute` threads explicit
state `σ` (e.g. an invocation counter), making its side effects visible. -/
def getOrCompute {σ : Type} (cache : Cache) (k : AnalysisKey)
    (compute : σ → Except String AnalysisResult × σ) (s : σ) :
    AnalysisResult × Cache × σ :=
  match cacheLookup cache k with
  | some r => (r, cache, s)
  | Option.none =>
      match compute s with
      | (Except.ok r, s2) => (r, (k, r) :: cache, s2)
      | (Except.error e, s2) =>
          (AnalysisResult.mk 5 ("Analysis Error: " ++ e), cache, s2)

/-- Modelled from the spec: the literal marker token scanned for by the
constitution-mode Result Interpreter (§4.3). -/
def riskMarker : String := "Risk Score:"

/-- Everything after the first occurrence of `pat`, or `none` when `pat` does
not occur. -/
def afterFirst (pat : List Char) : List Char → Option (List Char)
  | [] => if pat.isEmpty then some [] else Option.none
  | c :: cs =>
      if pat.isPrefixOf (c :: cs) then some ((c :: cs).drop pat.length)
      else afterFirst pat cs

/-- The first whitespace-delimited token of a char list, or `none` when there
is none. -/
def firstToken (l : List Char) : Option (List Char) :=
  match l.dropWhile Char.isWhitespace with
  | [] => Option.none
  | c :: cs => some ((c :: cs).takeWhile (fun d => !(d.isWhitespace)))

/-- Trailing punctuation stripped by the Result Interpreter (§4.3). -/
def isPunctChar (c : Char) : Bool :=
  c == '.' || c == ',' || c == ';' || c == ':' || c == '!' || c == '?'

/-- Parse a char list as an integer (optional leading minus sign). -/
def parseIntList? : List Char → Option Int
  | '-' :: rest => (parseNatList? rest).map (fun n => -(n : Int))
  | l => (parseNatList? l).map (fun n => (n : Int))

/-- Modelled from the spec: the constitution-mode score extraction of the
Result Interpreter (§4.3), absent from src/.  Scan for the marker, take the
next whitespace-delimited token, strip trailing punctuation and thousands
separators, and attempt integer parse; `none` on any failure. -/
def extractScore? (rawText : String) : Option Int :=
  match afterFirst riskMarker.data rawText.data with
  | Option.none => Option.none
  | some rest =>
      match firstToken rest with
      | Option.none => Option.none
      | some tok =>
          parseIntList?
            (((tok.reverse.dropWhile isPunctChar).reverse).filter
              (fun c => !(c == ',')))

/-- Modelled from the spec: the Result Interpreter `interpret(mode, rawText)`
(§4.3), absent from src/.  Constitution mode extracts a score with sentinel 5
on any parse failure; all other modes use the sentinel; the body is always
the entire raw text, never truncated. -/
def interpret (mode : AnalysisMode) (rawText : String) : AnalysisResult :=
  match mode with
  | AnalysisMode.constitution =>
      match extractScore? rawText with
      | some n => AnalysisResult.mk n rawText
      | Option.none => AnalysisResult.mk 5 rawText
  | _ => AnalysisResult.mk 5 rawText

/-- Modelled from the spec: the Selection Coordinator's store (§4.5), a map
from panel key to the currently selected item id. -/
abbrev SelectionState := List (String × String)

/-- Modelled from the spec: `getSelection(panelKey)` of the Selection
Coordinator (§4.5); absent from src/, where Streamlit's dataframe selection
API stands in. -/
def getSelection : SelectionState → String → Option String
  | [], _ => Option.none
  | (p0, x) :: rest, p => if p = p0 then some x else getSelection rest p

/-- Remove every entry of a panel from the store (so each panel holds at most
one selection). -/
def clearPanel : SelectionState → String → SelectionState
  | [], _ => []
  | (p0, x) :: rest, p =>
      if p0 = p then clearPanel rest p else (p0, x) :: clearPanel rest p

/-- Modelled from the spec: `setSelection(panelKey, itemId)` of the Selection
Coordinator (§4.5): last write wins, one slot per panel. -/
def setSelection (st : SelectionState) (panel itemId : String) : SelectionState :=
  (panel, itemId) :: clearPanel st panel

/-- Number of entries a panel holds in the store. -/
def countPanel : SelectionState → String → Nat
  | [], _ => 0
  | (p0, _) :: rest, p => (if p0 = p then 1 else 0) + countPanel rest p

/-- C1: for every AnalysisKey `k` not yet cached, two sequential calls to the
Analysis Cache's `getOrCompute` under `k` with a side-effect-counting
successful computation invoke the computation exactly once: the first call
computes, stores and returns the result with the counter at 1; the second
call returns the identical stored value, leaves the cache unchanged and the
counter still at 1. -/
theorem claim1_getOrCompute_once (cache : Cache) (k : AnalysisKey)
    (r : AnalysisResult) (h : cacheLookup cache k = Option.none) :
    getOrCompute cache k (fun n => (Except.ok r, n + 1)) 0
      = (r, (k, r) :: cache, 1) ∧
    getOrCompute ((k, r) :: cache) k (fun n => (Except.ok r, n + 1)) 1
      = (r, (k, r) :: cache, 1) := by
  constructor
  · unfold getOrCompute
    rw [h]
  · unfold getOrCompute
    have hhit : cacheLookup ((k, r) :: cache) k = some r := by
      simp [cacheLookup]
    rw [hhit]

/-- Witness for C1 at the concrete key ("HR123", impact) on the empty cache. -/
theorem claim1_witness :
    getOrCompute [] (AnalysisKey.mk "HR123" AnalysisMode.impact)
        (fun n => (Except.ok (AnalysisResult.mk 5 "analysis body"), n + 1)) 0
      = (AnalysisResult.mk 5 "analysis body",
          [(AnalysisKey.mk "HR123" AnalysisMode.impact,
            AnalysisResult.mk 5 "analysis body")], 1) ∧
    getOrCompute
        [(AnalysisKey.mk "HR123" AnalysisMode.impact,
          AnalysisResult.mk 5 "analysis body")]
        (AnalysisKey.mk "HR123" AnalysisMode.impact)
        (fun n => (Except.ok (AnalysisResult.mk 5 "analysis body"), n + 1)) 1
      = (AnalysisResult.mk 5 "analysis body",
          [(AnalysisKey.mk "HR123" AnalysisMode.impact,
            AnalysisResult.mk 5 "analysis body")], 1) :=
  claim1_getOrCompute_once [] (AnalysisKey.mk "HR123" AnalysisMode.impact)
    (AnalysisResult.mk 5 "analysis body") rfl

/-- C2: constitution-mode interpretation returns the parsed marker score when
the "Risk Score:" token parse succeeds and the sentinel 5 otherwise, always
pairing it with the entire raw text as the body; in particular the spec's two
examples hold, the trailing period of "7." is stripped before parsing, and a
marker-free text falls back to the sentinel. -/
theorem claim2_interpret_constitution (raw : String) :
    interpret AnalysisMode.constitution raw
      = AnalysisResult.mk ((extractScore? raw).getD 5) raw ∧
    (interpret AnalysisMode.constitution raw).body = raw ∧
    extractScore? "Risk Score: 7. Explanation..." = some 7 ∧
    extractScore? "No marker present" = Option.none ∧
    interpret AnalysisMode.constitution "Risk Score: 7. Explanation..."
      = AnalysisResult.mk 7 "Risk Score: 7. Explanation..." ∧
    interpret AnalysisMode.constitution "No marker present"
      = AnalysisResult.mk 5 "No marker present" := by
  refine ⟨?_, ?_, by decide, by decide, by decide, by decide⟩
  · unfold interpret
    cases extractScore? raw <;> rfl
  · unfold interpret
    cases extractScore? raw <;> rfl

/-- C3: for every backend, title and mode, an empty text or the recognized
"not yet available" placeholder makes `ai_analyze_policy` return the fixed
pending message with the LLM invocation count at 0. -/
theorem claim3_pending_short_circuit (gen : String → Except String String)
    (text title analysis_type : String)
    (h : text = "" ∨ text = "not yet available") :
    ai_analyze_policy gen text title analysis_type = (pendingMsg, 0) := by
  rcases h with h | h
  · subst h
    unfold ai_analyze_policy
    rw [if_pos]
    decide
  · subst h
    unfold ai_analyze_policy
    rw [if_pos]
    decide

/-- Witness for C3 at empty text with a concrete backend. -/
theorem claim3_witness :
    ai_analyze_policy (fun p => Except.ok p) "" "Title X" "impact"
      = (pendingMsg, 0) :=
  claim3_pending_short_circuit (fun p => Except.ok p) "" "Title X" "impact"
    (Or.inl rfl)

/-- C4: for every key not in the cache, a failed computation makes
`getOrCompute` return the user-visible "Analysis Error:" string in place of
the body while leaving the cache unchanged (the failure is not memoized), so
a subsequent successful computation under the same key computes, stores and
returns the successful result. -/
theorem claim4_failure_not_memoized (cache : Cache) (k : AnalysisKey)
    (e : String) (r : AnalysisResult) (h : cacheLookup cache k = Option.none) :
    getOrCompute cache k (fun n => (Except.error e, n + 1)) 0
      = (AnalysisResult.mk 5 ("Analysis Error: " ++ e), cache, 1) ∧
    getOrCompute cache k (fun n => (Except.ok r, n + 1)) 1
      = (r, (k, r) :: cache, 2) := by
  constructor
  · unfold getOrCompute
    rw [h]
  · unfold getOrCompute
    rw [h]

/-- Witness for C4 at the concrete key ("HR123", sentiment) on the empty
cache. -/
theorem claim4_witness :
    getOrCompute [] (AnalysisKey.mk "HR123" AnalysisMode.sentiment)
        (fun n => (Except.error "boom", n + 1)) 0
      = (AnalysisResult.mk 5 "Analysis Error: boom", [], 1) ∧
    getOrCompute [] (AnalysisKey.mk "HR123" AnalysisMode.sentiment)
        (fun n => (Except.ok (AnalysisResult.mk 5 "recovered"), n + 1)) 1
      = (AnalysisResult.mk 5 "recovered",
          [(AnalysisKey.mk "HR123" AnalysisMode.sentiment,
            AnalysisResult.mk 5 "recovered")], 2) :=
  claim4_failure_not_memoized [] (AnalysisKey.mk "HR123" AnalysisMode.sentiment)
    "boom" (AnalysisResult.mk 5 "recovered") rfl

/-- C5 counterexample: `fetch_data` on a 404 response returns Python `None`
with no surfaced warning — not an empty list plus a warning, as the claim
states for every data-source fetch. -/
theorem claim5_counterexample :
    (fetch_data (HttpOutcome.response 404 (PyVal.dict []))).1 = PyVal.none ∧
    (fetch_data (HttpOutcome.response 404 (PyVal.dict []))).2 = Option.none ∧
    PyVal.none ≠ PyVal.list [] :=
  ⟨rfl, rfl, fun h => nomatch h⟩

/-- C5 amended: no fetcher crashes; on a non-success status or a transport
error, `fetch_data` degrades to Python `None` (with a warning only in the
transport case), while `fetch_executive_orders`, `fetch_scotus_cases` and
`get_recent_bills` degrade to an empty list, with a warning surfaced only on
transport errors of `fetch_executive_orders` and `get_recent_bills`
(`fetch_scotus_cases` suppresses it). -/
theorem claim5_fetch_degradation (s : Nat) (b : PyVal) (e : String)
    (hs : s ≠ 200) :
    fetch_data (HttpOutcome.response s b) = (PyVal.none, Option.none) ∧
    fetch_data (HttpOutcome.exc e)
      = (PyVal.none, some ("API Error: " ++ e)) ∧
    fetch_executive_orders (HttpOutcome.response s b)
      = (PyVal.list [], Option.none) ∧
    fetch_executive_orders (HttpOutcome.exc e)
      = (PyVal.list [], some ("Error fetching Executive Orders: " ++ e)) ∧
    fetch_scotus_cases (HttpOutcome.response s b)
      = (PyVal.list [], Option.none) ∧
    fetch_scotus_cases (HttpOutcome.exc e)
      = (PyVal.list [], Option.none) ∧
    get_recent_bills (HttpOutcome.response s b)
      = (PyVal.list [], Option.none) ∧
    get_recent_bills (HttpOutcome.exc e)
      = (PyVal.list [], some ("Connection Error: " ++ e)) := by
  refine ⟨?_, rfl, ?_, rfl, ?_, rfl, ?_, rfl⟩ <;>
    simp [fetch_data, fetch_executive_orders, fetch_scotus_cases,
      get_recent_bills, hs]

/-- Witness for C5 amended at status 404 and a concrete transport error. -/
theorem claim5_witness :
    fetch_data (HttpOutcome.response 404 (PyVal.dict []))
      = (PyVal.none, Option.none) ∧
    fetch_data (HttpOutcome.exc "timeout")
      = (PyVal.none, some ("API Error: " ++ "timeout")) ∧
    fetch_executive_orders (HttpOutcome.response 404 (PyVal.dict []))
      = (PyVal.list [], Option.none) ∧
    fetch_executive_orders (HttpOutcome.exc "timeout")
      = (PyVal.list [],
          some ("Error fetching Executive Orders: " ++ "timeout")) ∧
    fetch_scotus_cases (HttpOutcome.response 404 (PyVal.dict []))
      = (PyVal.list [], Option.none) ∧
    fetch_scotus_cases (HttpOutcome.exc "timeout")
      = (PyVal.list [], Option.none) ∧
    get_recent_bills (HttpOutcome.response 404 (PyVal.dict []))
      = (PyVal.list [], Option.none) ∧
    get_recent_bills (HttpOutcome.exc "timeout")
      = (PyVal.list [], some ("Connection Error: " ++ "timeout")) :=
  claim5_fetch_degradation 404 (PyVal.dict []) "timeout" (by decide)

/-- C6: for every title, text and analysis-type tag not among the recognized
modes, the prompt is built from the impact template, and `ai_analyze_policy`
behaves exactly as it does for the impact mode — the call never fails on an
unknown mode. -/
theorem claim6_unknown_mode_impact (title text analysis_type : String)
    (h1 : analysis_type ≠ "impact") (h2 : analysis_type ≠ "sentiment")
    (h3 : analysis_type ≠ "semantic") :
    selectPrompt analysis_type title text = impactPrompt title text ∧
    ∀ gen, ai_analyze_policy gen text title analysis_type
      = ai_analyze_policy gen text title "impact" := by
  have hsel : selectPrompt analysis_type title text = impactPrompt title text := by
    unfold selectPrompt
    rw [if_neg h1, if_neg h2, if_neg h3]
  refine ⟨hsel, fun gen => ?_⟩
  unfold ai_analyze_policy
  rw [hsel,
    show selectPrompt "impact" title text = impactPrompt title text from by
      unfold selectPrompt
      rw [if_pos rfl]]

/-- Witness for C6 at the unrecognized mode "summary" (the source's own
default argument) with a concrete backend. -/
theorem claim6_witness :
    selectPrompt "summary" "Title X" "body text"
      = impactPrompt "Title X" "body text" ∧
    ai_analyze_policy (fun p => Except.ok p) "body text" "Title X" "summary"
      = ai_analyze_policy (fun p => Except.ok p) "body text" "Title X" "impact" :=
  ⟨(claim6_unknown_mode_impact "Title X" "body text" "summary"
      (by decide) (by decide) (by decide)).1,
   (claim6_unknown_mode_impact "Title X" "body text" "summary"
      (by decide) (by decide) (by decide)).2 (fun p => Except.ok p)⟩

/-- C7: the legislative-bill fetch is cached with a time-to-live of exactly
10 minutes and the executive-order and Supreme Court fetches with exactly
60 minutes: a stored entry is still served one second before the bound and
recomputed once it is reached. -/
theorem claim7_fetch_ttl :
    fetch_data_ttl = 10 * 60 ∧
    fetch_executive_orders_ttl = 60 * 60 ∧
    fetch_scotus_cases_ttl = 60 * 60 ∧
    (∀ (t0 : Nat) (v c : PyVal),
      cachedCall fetch_data_ttl (some (t0, v)) (t0 + 599) c = (v, 0) ∧
      cachedCall fetch_data_ttl (some (t0, v)) (t0 + 600) c = (c, 1)) ∧
    (∀ (t0 : Nat) (v c : PyVal),
      cachedCall fetch_executive_orders_ttl (some (t0, v)) (t0 + 3599) c
        = (v, 0) ∧
      cachedCall fetch_executive_orders_ttl (some (t0, v)) (t0 + 3600) c
        = (c, 1)) ∧
    (∀ (t0 : Nat) (v c : PyVal),
      cachedCall fetch_scotus_cases_ttl (some (t0, v)) (t0 + 3599) c = (v, 0) ∧
      cachedCall fetch_scotus_cases_ttl (some (t0, v)) (t0 + 3600) c
        = (c, 1)) := by
  refine ⟨rfl, rfl, rfl, ?_, ?_, ?_⟩ <;>
    intro t0 v c <;>
    constructor <;>
    simp [cachedCall, fetch_data_ttl, fetch_executive_orders_ttl,
      fetch_scotus_cases_ttl, Nat.add_sub_cancel_left]

/-- Selection lookups ignore entries cleared for a different panel. -/
theorem getSelection_clearPanel (st : SelectionState) (p q : String)
    (h : q ≠ p) :
    getSelection (clearPanel st p) q = getSelection st q := by
  induction st with
  | nil => rfl
  | cons hd tl ih =>
    obtain ⟨p0, x⟩ := hd
    by_cases h0 : p0 = p
    · subst h0
      simp [clearPanel, getSelection, ih, h]
    · simp [clearPanel, h0, getSelection]
      by_cases hq : q = p0
      · simp [hq]
      · simp [hq, ih]

/-- Clearing a panel removes every entry it held. -/
theorem countPanel_clearPanel (st : SelectionState) (p : String) :
    countPanel (clearPanel st p) p = 0 := by
  induction st with
  | nil => rfl
  | cons hd tl ih =>
    obtain ⟨p0, x⟩ := hd
    by_cases h0 : p0 = p
    · simp [clearPanel, h0, ih]
    · simp [clearPanel, h0, countPanel, ih]

/-- C8: for every store, a selection write on a panel followed immediately by
a read of the same panel returns the written item id, a read of any other
panel (holding no selection) returns none, and after the write the panel
holds exactly one selection. -/
theorem claim8_selection (st : SelectionState) (panel other itemId : String)
    (hne : other ≠ panel) (hnone : getSelection st other = Option.none) :
    getSelection (setSelection st panel itemId) panel = some itemId ∧
    getSelection (setSelection st panel itemId) other = Option.none ∧
    countPanel (setSelection st panel itemId) panel = 1 := by
  refine ⟨?_, ?_, ?_⟩
  · simp [setSelection, getSelection]
  · simp [setSelection, getSelection, hne,
      getSelection_clearPanel st panel other hne, hnone]
  · simp [setSelection, countPanel, countPanel_clearPanel]

/-- Witness for C8 at the spec's own example: write "HR123" to the
"legislation" panel of the empty store, then read both panels. -/
theorem claim8_witness :
    getSelection (setSelection [] "legislation" "HR123") "legislation"
      = some "HR123" ∧
    getSelection (setSelection [] "legislation" "HR123") "other_panel"
      = Option.none ∧
    countPanel (setSelection [] "legislation" "HR123") "legislation" = 1 :=
  claim8_selection [] "legislation" "other_panel" "HR123" (by decide) rfl

/-- C9 counterexample: the input "q" is neither all digits nor in range, yet
the loop quits instead of printing the invalid-selection message, refuting
the claim that every non-indexing input produces that message. -/
theorem claim9_counterexample :
    handleChoice [PyVal.dict []] "q" = ChoiceOutcome.quit ∧
    ChoiceOutcome.quit ≠ ChoiceOutcome.invalid := by
  constructor
  · decide
  · decide

/-- C9 amended: for every bills list and input, the list is indexed only at a
position strictly below its length; a non-quit input that passes `isdigit`
and whose `int()` value lies in [1, length] selects exactly the corresponding
bill; a non-quit input failing `isdigit`, or parsing out of range, produces
the invalid-selection message and performs no indexing; a non-quit input that
passes `isdigit` but on which `int()` fails (a non-decimal digit char, e.g.
the superscript "²") crashes with an uncaught ValueError instead of printing
the message; the quit command "q"/"Q" exits the loop. -/
theorem claim9_guarded_indexing (bills : List PyVal) (choice : String) :
    (∀ i, handleChoice bills choice = ChoiceOutcome.details i →
      i < bills.length) ∧
    (∀ n, choice.data.map Char.toLower ≠ [ 'q' ] →
      pyIsDigit choice = true → pyInt? choice.data = some n →
      1 ≤ n → n ≤ bills.length →
      handleChoice bills choice = ChoiceOutcome.details (n - 1)) ∧
    (choice.data.map Char.toLower ≠ [ 'q' ] → pyIsDigit choice = false →
      handleChoice bills choice = ChoiceOutcome.invalid) ∧
    (∀ n, choice.data.map Char.toLower ≠ [ 'q' ] →
      pyIsDigit choice = true → pyInt? choice.data = some n →
      ¬(1 ≤ n ∧ n ≤ bills.length) →
      handleChoice bills choice = ChoiceOutcome.invalid) ∧
    (choice.data.map Char.toLower ≠ [ 'q' ] → pyIsDigit choice = true →
      pyInt? choice.data = Option.none →
      handleChoice bills choice = ChoiceOutcome.valueError) ∧
    handleChoice [PyVal.dict []] "²" = ChoiceOutcome.valueError := by
  refine ⟨?_, ?_, ?_, ?_, ?_, by decide⟩
  · intro i hi
    unfold handleChoice at hi
    split at hi
    · exact nomatch hi
    · split at hi
      · split at hi
        · next n heq =>
          split at hi
          · next hr =>
            injection hi with h
            omega
          · exact nomatch hi
        · exact nomatch hi
      · exact nomatch hi
  · intro n hq hd hp h1 h2
    unfold handleChoice
    rw [if_neg hq, if_pos hd, hp]
    show (if 1 ≤ n ∧ n ≤ bills.length then ChoiceOutcome.details (n - 1)
      else ChoiceOutcome.invalid) = ChoiceOutcome.details (n - 1)
    rw [if_pos ⟨h1, h2⟩]
  · intro hq hd
    unfold handleChoice
    rw [if_neg hq, hd, if_neg Bool.false_ne_true]
  · intro n hq hd hp hr
    unfold handleChoice
    rw [if_neg hq, if_pos hd, hp]
    show (if 1 ≤ n ∧ n ≤ bills.length then ChoiceOutcome.details (n - 1)
      else ChoiceOutcome.invalid) = ChoiceOutcome.invalid
    rw [if_neg hr]
  · intro hq hd hp
    unfold handleChoice
    rw [if_neg hq, if_pos hd, hp]

/-- Witness for C9 amended: on a one-element bills list, the input "1" selects
index 0. -/
theorem claim9_witness :
    handleChoice [PyVal.dict []] "1" = ChoiceOutcome.details 0 :=
  (claim9_guarded_indexing [PyVal.dict []] "1").2.1 1 (by decide) (by decide)
    (by decide) (by decide) (by decide)

/-- C10: `ai_analyze_policy` is total at its interface — for every backend and
every (text, title, analysis type) triple it returns a string that is either
the fixed pending message, the backend's successful response text, or the
string "Analysis Error:" followed by the caught exception message. -/
theorem claim10_analyze_total (gen : String → Except String String)
    (text title analysis_type : String) :
    ai_analyze_policy gen text title analysis_type = (pendingMsg, 0) ∨
    (∃ t, gen (selectPrompt analysis_type title text) = Except.ok t ∧
      ai_analyze_policy gen text title analysis_type = (t, 1)) ∨
    (∃ e, gen (selectPrompt analysis_type title text) = Except.error e ∧
      ai_analyze_policy gen text title analysis_type
        = ("Analysis Error: " ++ e, 1)) := by
  unfold ai_analyze_policy
  by_cases hc : (text == "" || pyContains text "not yet available") = true
  · rw [if_pos hc]
    exact Or.inl rfl
  · rw [if_neg hc]
    cases hg : gen (selectPrompt analysis_type title text) with
    | ok t => exact Or.inr (Or.inl ⟨t, rfl, rfl⟩)
    | error e => exact Or.inr (Or.inr ⟨e, rfl, rfl⟩)
